import Mathlib

/-!
Shallow embedding of the `pasts` / `seriestemporelles` repository
(files `src/seriestemporelles/signal/signal_analysis.py` and
`src/pasts/visualization.py`), together with theorems settling the
frozen claims about its specification.

Modelling conventions:
* A pandas `DataFrame` is a column list, an index array and a row-major
  value matrix.  Timestamps are integers (pandas indexes are ordered;
  the examples use both dates and plain integers).
* Python methods that can raise are embedded as functions returning
  `Except PyError _`; an attribute read of a never-assigned attribute
  is `PyError.attributeError`, `raise Exception(msg)` is
  `PyError.exception msg`, a missing dictionary key is
  `PyError.keyError`.  On an error the embedding drops the receiver
  state (the Python exception propagates out of the method).
* A darts model is embedded as the interface the orchestrators consume:
  class name, the fused `fit`-then-`predict` pipeline as a pure
  function, and the `gridsearch` class method.  numpy float arithmetic
  is modelled by exact rationals; `np.sqrt` by the integer-square-root
  approximation and `.round(2)` by half-up decimal rounding (no claim
  depends on metric values).
* Python `dict` update `d[k] = v` keeps the position of an existing key
  and appends a new key at the end (`dict_insert`).
-/

/-- Python exception outcomes distinguished by the claims: a user-facing
`raise Exception(msg)`, an `AttributeError` on a never-assigned attribute,
and a `KeyError` on a missing dictionary key. -/
inductive PyError where
  | exception (msg : String)
  | attributeError (attr : String)
  | keyError (key : String)
  deriving Repr, DecidableEq

/-- Timestamps of the index of a time-indexed frame. -/
abbrev Timestamp := Int

/-- A hyperparameter search space (`parameters` grid): parameter name to
candidate values.  Its contents are never inspected by the orchestrators. -/
abbrev ParamGrid := List (String × List Rat)

/-- A selected parameter assignment (`best_parameters`); never consumed. -/
abbrev ParamChoice := List (String × Rat)

/-- A pandas `DataFrame`: named columns, a timestamp index and a
row-major matrix of values (`rows` is one value list per index entry). -/
structure DataFrame where
  cols : List String
  index : List Timestamp
  rows : List (List Rat)
  deriving Repr, DecidableEq

/-- The rows of a frame paired with their timestamps. -/
def DataFrame.toPairs (df : DataFrame) : List (Timestamp × List Rat) :=
  df.index.zip df.rows

/-- Boolean-mask row selection `df.loc[p(df.index)]`. -/
def DataFrame.filter_index (df : DataFrame) (p : Timestamp → Bool) : DataFrame :=
  let kept := df.toPairs.filter (fun r => p r.1)
  { cols := df.cols, index := kept.map Prod.fst, rows := kept.map Prod.snd }

/-- Flattened `df.values`; for the univariate frames fed to sklearn
metrics this is the single column of values. -/
def DataFrame.values_flat (df : DataFrame) : List Rat :=
  df.rows.flatten

/-- A fresh pandas `RangeIndex(n)` as produced by
`pd.DataFrame(values)` without an explicit index. -/
def range_index (n : Nat) : List Timestamp :=
  (List.range n).map (fun i => (i : Int))

/-- Python `dict` assignment `d[k] = v`: an existing key keeps its
position and gets the new value, a new key is appended at the end. -/
def dict_insert {α : Type} (k : String) (v : α) : List (String × α) → List (String × α)
  | [] => [(k, v)]
  | (k2, v2) :: rest =>
      if k2 = k then (k, v) :: rest else (k2, v2) :: dict_insert k v rest

/-- Python `dict` read `d.get(k)`. -/
def dict_lookup {α : Type} (k : String) : List (String × α) → Option α
  | [] => none
  | (k2, v2) :: rest => if k2 = k then some v2 else dict_lookup k rest

/-- Arithmetic mean of a list of rationals (numpy mean). -/
def list_mean (l : List Rat) : Rat :=
  l.sum / (l.length : Rat)

/-- sklearn `mean_squared_error`. -/
def mean_squared_error (y_true y_pred : List Rat) : Rat :=
  list_mean ((y_true.zip y_pred).map (fun p => (p.1 - p.2) ^ 2))

/-- sklearn `r2_score`: one minus residual over total sum of squares. -/
def r2_score (y_true y_pred : List Rat) : Rat :=
  let ybar := list_mean y_true
  1 - ((y_true.zip y_pred).map (fun p => (p.1 - p.2) ^ 2)).sum /
      ((y_true.map (fun y => (y - ybar) ^ 2)).sum)

/-- `np.sqrt` modelled on rationals by integer square roots of numerator
and denominator (exact on perfect squares; no claim reads the value). -/
def rat_sqrt (q : Rat) : Rat :=
  (Int.sqrt q.num : Rat) / (Nat.sqrt q.den : Rat)

/-- `np.float64.round(2)` modelled as half-up rounding to two decimals. -/
def round2 (q : Rat) : Rat :=
  ((round (q * 100) : Int) : Rat) / 100

/-- darts `mape`: mean absolute percentage error over every component of
every time step, in percent. -/
def mape (actual forecast : List (List Rat)) : Rat :=
  100 * list_mean ((actual.flatten.zip forecast.flatten).map (fun p => |p.1 - p.2| / |p.1|))

/-- The fit/predict face of a darts forecasting model as consumed by
`SignalAnalysis.apply_model`: the class name and the fused
`fit(series); predict(n).univariate_values()` pipeline as a pure
function of the training frame and the horizon. -/
structure ForecastModel where
  name : String
  fit_predict : DataFrame → Nat → List Rat

/-- A univariate darts model: additionally the `gridsearch` class method,
which (as in darts) returns the triple
`(best_model, best_parameters, best_score)`. -/
structure SAModel extends ForecastModel where
  gridsearch : ParamGrid → DataFrame → Rat → Nat → ForecastModel × ParamChoice × Rat

/-- The fit/predict face of a multivariate darts model:
`fit(series); predict(n).values()` returns a value matrix. -/
structure MVForecastModel where
  name : String
  fit_predict : DataFrame → Nat → List (List Rat)

/-- A multivariate model as consumed by
`MultiVariateSignalAnalysis.apply_model`, whose call site unpacks
`gridsearch` into the pair `(best_model, best_parameters)` and passes
the `parameters` argument through unchecked (hence `Option ParamGrid`). -/
structure MVModel extends MVForecastModel where
  gridsearch : Option ParamGrid → DataFrame → Rat → Nat → MVForecastModel × ParamChoice

/-- Per-model score record of `SignalAnalysis` (keys `R2_score`,
`RMSE_score`). -/
structure SAScore where
  R2_score : Rat
  RMSE_score : Rat
  deriving Repr, DecidableEq

/-- Per-model result record of `SignalAnalysis` (keys `test_set`,
`predictions`). -/
structure SAResult where
  test_set : DataFrame
  predictions : List Rat
  deriving Repr, DecidableEq

/-- Per-model score record of `MultiVariateSignalAnalysis`. -/
structure MVScore where
  MAPE_score : Rat
  deriving Repr, DecidableEq

/-- Per-model result record of `MultiVariateSignalAnalysis`; the stored
predictions are a fresh frame built from the forecast values, carrying a
`RangeIndex` until `show_predictions` reassigns it. -/
structure MVResult where
  test_set : DataFrame
  predictions : DataFrame
  deriving Repr, DecidableEq

/-- State of a `SignalAnalysis` orchestrator.  `train_set`/`test_set`
are `Option`s because the attributes only exist after `split_cv`;
reading `none` is an `AttributeError`.  The profiling `report` and
`apply_test` bookkeeping delegate to external collaborators not touched
by any claim and are omitted. -/
structure SignalAnalysis where
  data : DataFrame
  train_set : Option DataFrame
  test_set : Option DataFrame
  scores : List (String × SAScore)
  results : List (String × SAResult)
  deriving Repr, DecidableEq

/-- `SignalAnalysis.__init__`: stores the data and empty score/result
dictionaries; no train/test attributes yet. -/
def SignalAnalysis.init (data : DataFrame) : SignalAnalysis :=
  { data := data, train_set := none, test_set := none, scores := [], results := [] }

/-- `SignalAnalysis.split_cv` (signal_analysis.py lines 28-31): assigns
`train_set = data.loc[data.index <= timestamp]` and
`test_set = data.loc[data.index > timestamp]`.  The body has no raise
and no validation; the optional `n_splits_cv` branch only prints rolling
folds and stores an iterator (`ts_cv`) read by nothing, so it is omitted. -/
def SignalAnalysis.split_cv (s : SignalAnalysis) (timestamp : Timestamp) :
    Except PyError SignalAnalysis :=
  .ok { s with
    train_set := some (s.data.filter_index (fun i => i ≤ timestamp)),
    test_set := some (s.data.filter_index (fun i => i > timestamp)) }

/-- The result record stored by `SignalAnalysis.apply_model`:
`{'test_set': test_set, 'predictions': forecast}` where the forecast is
the fitted model predicted for `len(test_set)` steps. -/
def sa_result_of (mdl : ForecastModel) (train_set test_set : DataFrame) : SAResult :=
  { test_set := test_set, predictions := mdl.fit_predict train_set test_set.index.length }

/-- The score record stored by `SignalAnalysis.apply_model`:
rounded R2 and RMSE of the forecast against the test values. -/
def sa_score_of (mdl : ForecastModel) (train_set test_set : DataFrame) : SAScore :=
  { R2_score := round2 (r2_score test_set.values_flat (mdl.fit_predict train_set test_set.index.length)),
    RMSE_score := round2 (rat_sqrt (mean_squared_error test_set.values_flat
      (mdl.fit_predict train_set test_set.index.length))) }

/-- `SignalAnalysis.apply_model` (signal_analysis.py lines 44-72).
Order of effects follows the source: `self.train_set` is read first
(line 46), then the gridsearch branch runs (`raise Exception("please
enter the parameters")` when `parameters is None`, line 49, otherwise
`model.gridsearch(parameters, series_train, start=0.5,
forecast_horizon=5)` unpacked as `best_model, best_parameters, _`),
then the chosen model is fitted on the train slice and predicts
`len(self.test_set)` steps, and the score/result dictionaries are
updated under the chosen model's class name. -/
def SignalAnalysis.apply_model (s : SignalAnalysis) (model : SAModel)
    (gridsearch : Bool) (parameters : Option ParamGrid) :
    Except PyError SignalAnalysis :=
  match s.train_set with
  | none => .error (.attributeError "train_set")
  | some series_train =>
    let chosen : Except PyError ForecastModel :=
      if gridsearch then
        match parameters with
        | none => .error (.exception "please enter the parameters")
        | some ps => .ok (model.gridsearch ps series_train (1/2 : Rat) 5).1
      else .ok model.toForecastModel
    match chosen with
    | .error e => .error e
    | .ok mdl =>
      match s.test_set with
      | none => .error (.attributeError "test_set")
      | some test_set =>
        .ok { s with
          scores := dict_insert mdl.name (sa_score_of mdl series_train test_set) s.scores,
          results := dict_insert mdl.name (sa_result_of mdl series_train test_set) s.results }

/-- The arguments of one univariate `apply_model(model, gridsearch,
parameters)` call. -/
abbrev SACall := SAModel × Bool × Option ParamGrid

/-- The effective model a univariate call fits and records: the model
itself on a plain call, or the best model selected by
`model.gridsearch(parameters, series_train, start=0.5,
forecast_horizon=5)` on a search call.  (A search call without a grid
raises before reaching this point and records nothing; the value of the
`none` branch is never used under that guard.) -/
def sa_call_model (tr : DataFrame) (c : SACall) : ForecastModel :=
  if c.2.1 then
    match c.2.2 with
    | some ps => (c.1.gridsearch ps tr (1/2 : Rat) 5).1
    | none => c.1.toForecastModel
  else c.1.toForecastModel

/-- A sequence of `apply_model` calls (plain or gridsearch) on the
univariate orchestrator, stopping at the first raised exception; used
to state the accumulation claim. -/
def SignalAnalysis.apply_model_seq :
    SignalAnalysis → List SACall → Except PyError SignalAnalysis
  | s, [] => .ok s
  | s, c :: cs =>
      match s.apply_model c.1 c.2.1 c.2.2 with
      | .error e => .error e
      | .ok s2 => s2.apply_model_seq cs

/-- Rendering outcome of a plotting method: the legend labels, the
models actually plotted, and the warnings emitted. -/
structure RenderOut where
  labels : List String
  plotted : List String
  warnings : List String
  deriving Repr, DecidableEq

/-- Legend labels `['Actuals_s1', ..., 'Actuals_sn']`. -/
def actual_labels (n : Nat) : List String :=
  (List.range n).map (fun i => "Actuals_s" ++ toString (i + 1))

/-- Legend labels `[k + '_s1', ..., k + '_sn']` for a plotted model. -/
def model_labels (k : String) (n : Nat) : List String :=
  (List.range n).map (fun i => k ++ "_s" ++ toString (i + 1))

/-- Loop body of `SignalAnalysis.show_predictions` (lines 76-77): each
stored prediction array is written as a new column of a local copy of
the test frame; pandas raises when the array length differs from the
number of rows.  Returns the model keys in order. -/
def sa_pred_loop (te_len : Nat) : List (String × SAResult) → Except PyError (List String)
  | [] => .ok []
  | (k, r) :: rest =>
      if r.predictions.length ≠ te_len then
        .error (.exception "Length of values does not match length of index")
      else
        match sa_pred_loop te_len rest with
        | .error e => .error e
        | .ok ks => .ok (k :: ks)

/-- `SignalAnalysis.show_predictions` (lines 74-86): copies the test
frame (`self.test_set.copy()`, so the orchestrator state is untouched),
adds one column per recorded model, and plots the raw data plus each
model column with labels `['Actuals'] ++ model names`.  There is no
guard against an empty results dictionary. -/
def SignalAnalysis.show_predictions (s : SignalAnalysis) :
    Except PyError (SignalAnalysis × RenderOut) :=
  match s.test_set with
  | none => .error (.attributeError "test_set")
  | some test_set =>
    match sa_pred_loop test_set.index.length s.results with
    | .error e => .error e
    | .ok ks => .ok (s, { labels := "Actuals" :: ks, plotted := ks, warnings := [] })

/-- State of a `MultiVariateSignalAnalysis` orchestrator (`__init__`
stores the data and empty score/result dictionaries). -/
structure MultiVariateSignalAnalysis where
  data : DataFrame
  train_set : Option DataFrame
  test_set : Option DataFrame
  scores : List (String × MVScore)
  results : List (String × MVResult)
  deriving Repr, DecidableEq

/-- `MultiVariateSignalAnalysis.__init__`. -/
def MultiVariateSignalAnalysis.init (data : DataFrame) : MultiVariateSignalAnalysis :=
  { data := data, train_set := none, test_set := none, scores := [], results := [] }

/-- `MultiVariateSignalAnalysis.split_cv` (lines 95-98): identical to the
univariate version, filtering rows at the timestamp with no validation. -/
def MultiVariateSignalAnalysis.split_cv (s : MultiVariateSignalAnalysis)
    (timestamp : Timestamp) : Except PyError MultiVariateSignalAnalysis :=
  .ok { s with
    train_set := some (s.data.filter_index (fun i => i ≤ timestamp)),
    test_set := some (s.data.filter_index (fun i => i > timestamp)) }

/-- The result record stored by `MultiVariateSignalAnalysis.apply_model`
(lines 136-139): the test frame and a fresh frame
`pd.DataFrame(forecast.values(), columns=train_set.columns)` carrying a
`RangeIndex`. -/
def mv_result_of (mdl : MVForecastModel) (train_set test_set : DataFrame) : MVResult :=
  let forecast := mdl.fit_predict train_set test_set.index.length
  { test_set := test_set,
    predictions := { cols := train_set.cols, index := range_index forecast.length, rows := forecast } }

/-- The score record stored by `MultiVariateSignalAnalysis.apply_model`
(lines 140-141): the rounded MAPE of the forecast against the test series. -/
def mv_score_of (mdl : MVForecastModel) (train_set test_set : DataFrame) : MVScore :=
  { MAPE_score := round2 (mape test_set.rows (mdl.fit_predict train_set test_set.index.length)) }

/-- `MultiVariateSignalAnalysis.apply_model` (lines 111-141).  Order of
effects follows the source: the gridsearch branch runs first and reads
`self.train_set` as its `series` argument (line 115) with **no** check
that `parameters` was supplied, unpacking the result as the pair
`best_model, best_parameters`; then the train and test frames are read,
the chosen model is fitted on the train slice and predicts
`len(self.test_set)` steps, and the result/score dictionaries are
updated under the chosen model's class name. -/
def MultiVariateSignalAnalysis.apply_model (s : MultiVariateSignalAnalysis)
    (model : MVModel) (gridsearch : Bool) (parameters : Option ParamGrid) :
    Except PyError MultiVariateSignalAnalysis :=
  let chosen : Except PyError MVForecastModel :=
    if gridsearch then
      match s.train_set with
      | none => .error (.attributeError "train_set")
      | some tr => .ok (model.gridsearch parameters tr (1/2 : Rat) 12).1
    else .ok model.toMVForecastModel
  match chosen with
  | .error e => .error e
  | .ok mdl =>
    match s.train_set with
    | none => .error (.attributeError "train_set")
    | some series_train =>
      match s.test_set with
      | none => .error (.attributeError "test_set")
      | some series_test =>
        .ok { s with
          results := dict_insert mdl.name (mv_result_of mdl series_train series_test) s.results,
          scores := dict_insert mdl.name (mv_score_of mdl series_train series_test) s.scores }

/-- The arguments of one multivariate `apply_model(model, gridsearch,
parameters)` call. -/
abbrev MVCall := MVModel × Bool × Option ParamGrid

/-- The effective model a multivariate call fits and records: the model
itself on a plain call, or the best model selected by
`model.gridsearch(parameters, train_set, start=0.5,
forecast_horizon=12)` on a search call (the parameter grid, possibly
absent, is passed through unchecked). -/
def mv_call_model (tr : DataFrame) (c : MVCall) : MVForecastModel :=
  if c.2.1 then (c.1.gridsearch c.2.2 tr (1/2 : Rat) 12).1
  else c.1.toMVForecastModel

/-- A sequence of `apply_model` calls (plain or gridsearch) on the
multivariate orchestrator, stopping at the first raised exception. -/
def MultiVariateSignalAnalysis.apply_model_seq :
    MultiVariateSignalAnalysis → List MVCall → Except PyError MultiVariateSignalAnalysis
  | m, [] => .ok m
  | m, c :: cs =>
      match m.apply_model c.1 c.2.1 c.2.2 with
      | .error e => .error e
      | .ok m2 => m2.apply_model_seq cs

/-- Loop body of `MultiVariateSignalAnalysis.show_predictions` (lines
150-156): for each recorded model the **stored** prediction frame's
index is reassigned in place to the test index (`pred.index =
self.test_set.index`; pandas raises on a length mismatch), then the
frame is plotted.  Returns the mutated entries, the accumulated model
labels and the plotted keys. -/
def mv_pred_loop (te : DataFrame) (n : Nat) :
    List (String × MVResult) →
    Except PyError (List (String × MVResult) × List String × List String)
  | [] => .ok ([], [], [])
  | (k, r) :: rest =>
      if r.predictions.rows.length ≠ te.index.length then
        .error (.exception "Length mismatch")
      else
        match mv_pred_loop te n rest with
        | .error e => .error e
        | .ok (es, ls, ks) =>
            .ok ((k, { r with predictions := { r.predictions with index := te.index } }) :: es,
                 model_labels k n ++ ls, k :: ks)

/-- `MultiVariateSignalAnalysis.show_predictions` (lines 143-158): reads
`self.test_set.shape[1]`, plots the raw data, then runs the loop that
mutates each stored prediction frame's index before plotting it. -/
def MultiVariateSignalAnalysis.show_predictions (s : MultiVariateSignalAnalysis) :
    Except PyError (MultiVariateSignalAnalysis × RenderOut) :=
  match s.test_set with
  | none => .error (.attributeError "test_set")
  | some test_set =>
    let n := test_set.cols.length
    match mv_pred_loop test_set n s.results with
    | .error e => .error e
    | .ok (es, ls, ks) =>
        .ok ({ s with results := es },
             { labels := actual_labels n ++ ls, plotted := ks, warnings := [] })

/-- A darts `TimeSeries` as stored inside a `Signal`'s model records and
consumed by `Visualization` via `.values()`, `.columns`, `.time_index`. -/
structure TSObj where
  values : List (List Rat)
  columns : List String
  time_index : List Timestamp
  deriving Repr, DecidableEq

/-- A per-unit frame of (lower, upper) interval bounds, consumed by the
aggregated-model branches of `Visualization` (`itv.index`,
`itv[unit].values`). -/
structure IntervalFrame where
  index : List Timestamp
  entries : List (String × List (Rat × Rat))
  deriving Repr, DecidableEq

/-- One entry of `signal.models` as read by `visualization.py`: the
`'predictions'` key is always present, while `'forecast'`,
`'confidence_interval'` and `'forecast_interval'` may be absent
(`Option`); reading an absent key raises `KeyError`, and
`show_forecast` tests `'forecast' not in record` explicitly. -/
structure ModelRecord where
  predictions : TSObj
  forecast : Option TSObj
  confidence_interval : Option IntervalFrame
  forecast_interval : Option IntervalFrame
  deriving Repr, DecidableEq

/-- The face of the `pasts` `Signal` object consumed by `Visualization`
(the `Signal` class itself is outside the provided sources; these are
exactly the attributes `visualization.py` reads: `data`, `test_data`
and the `models` dictionary). -/
structure Signal where
  data : DataFrame
  test_data : DataFrame
  models : List (String × ModelRecord)
  deriving Repr, DecidableEq

/-- Interval legend labels of the aggregated-model branches (lines
108-115 and 150-157 of visualization.py): for each data column, looked
up in the interval frame (`KeyError` when absent), the labels
`lower_si, upper_si, interval_si`. -/
def interval_labels (itv : IntervalFrame) : Nat → List String → Except PyError (List String)
  | _, [] => .ok []
  | i, unit :: rest =>
      match dict_lookup unit itv.entries with
      | none => .error (.keyError unit)
      | some _ =>
          match interval_labels itv (i + 1) rest with
          | .error e => .error e
          | .ok ls =>
              .ok (("lower_s" ++ toString (i + 1)) :: ("upper_s" ++ toString (i + 1)) ::
                   ("interval_s" ++ toString (i + 1)) :: ls)

/-- Plot loop of `Visualization.show_predictions` (lines 119-125): every
model in `to_plot` is rendered from a **new** local frame built out of
its stored predictions (no state is touched), appending its legend
labels. -/
def vis_pred_loop (n : Nat) : List (String × ModelRecord) → List String × List String
  | [] => ([], [])
  | (k, _) :: rest =>
      let (ls, ks) := vis_pred_loop n rest
      (model_labels k n ++ ls, k :: ks)

/-- `Visualization.show_predictions` (visualization.py lines 92-133):
raises `Exception('No predictions have been computed.')` when the
signal's model dictionary is empty, before anything is rendered; in the
`aggregated_only` branch it requires an `AggregatedModel` entry and its
confidence intervals, otherwise it plots every recorded model.  The
signal is returned unchanged: the method only builds local frames. -/
def Visualization.show_predictions (s : Signal) (aggregated_only : Bool) :
    Except PyError (Signal × RenderOut) :=
  if s.models.isEmpty then .error (.exception "No predictions have been computed.")
  else
    let n := s.test_data.cols.length
    let base := actual_labels n
    if aggregated_only then
      match dict_lookup "AggregatedModel" s.models with
      | none => .error (.exception "No predictions have been computed with aggregated model")
      | some r =>
        match r.confidence_interval with
        | none => .error (.keyError "confidence_interval")
        | some itv =>
          match interval_labels itv 0 s.data.cols with
          | .error e => .error e
          | .ok ils =>
              let (ls, ks) := vis_pred_loop n [("AggregatedModel", r)]
              .ok (s, { labels := base ++ ils ++ ls, plotted := ks, warnings := [] })
    else
      let (ls, ks) := vis_pred_loop n s.models
      .ok (s, { labels := base ++ ls, plotted := ks, warnings := [] })

/-- Plot loop of `Visualization.show_forecast` (lines 161-171): a model
whose record has no `'forecast'` key gets the warning `No forecasts
have been computed with <model>` and is skipped (`continue`); every
other model is rendered from a new local frame. -/
def vis_forecast_loop (n : Nat) :
    List (String × ModelRecord) → List String × List String × List String
  | [] => ([], [], [])
  | (k, r) :: rest =>
      let (ls, ks, ws) := vis_forecast_loop n rest
      match r.forecast with
      | none => (ls, ks, ("No forecasts have been computed with " ++ k) :: ws)
      | some _ => (model_labels k n ++ ls, k :: ks, ws)

/-- `Visualization.show_forecast` (visualization.py lines 135-179): no
empty-models guard; the `aggregated_only` branch requires an
`AggregatedModel` entry and its forecast intervals; the plot loop skips
(with a warning) any model lacking forecast output.  The signal is
returned unchanged. -/
def Visualization.show_forecast (s : Signal) (aggregated_only : Bool) :
    Except PyError (Signal × RenderOut) :=
  let n := s.test_data.cols.length
  let base := actual_labels n
  if aggregated_only then
    match dict_lookup "AggregatedModel" s.models with
    | none => .error (.exception "No predictions have been computed with aggregated model")
    | some r =>
      match r.forecast_interval with
      | none => .error (.keyError "forecast_interval")
      | some itv =>
        match interval_labels itv 0 s.data.cols with
        | .error e => .error e
        | .ok ils =>
            let (ls, ks, ws) := vis_forecast_loop n [("AggregatedModel", r)]
            .ok (s, { labels := base ++ ils ++ ls, plotted := ks, warnings := ws })
  else
    let (ls, ks, ws) := vis_forecast_loop n s.models
    .ok (s, { labels := base ++ ls, plotted := ks, warnings := ws })

/-!  Helper lemmas about zipping, filtering and the dictionary model. -/

theorem zip_map_fst_snd_eq {α β : Type} : ∀ (l : List (α × β)),
    (l.map Prod.fst).zip (l.map Prod.snd) = l := by
  intro l
  induction l with
  | nil => rfl
  | cons x xs ih => simpa using ih

theorem fst_mem_of_mem_zip {α β : Type} :
    ∀ {l1 : List α} {l2 : List β} {p : α × β}, p ∈ l1.zip l2 → p.1 ∈ l1 := by
  intro l1
  induction l1 with
  | nil => intro l2 p hp; simp at hp
  | cons x xs ih =>
    intro l2 p hp
    cases l2 with
    | nil => simp at hp
    | cons y ys =>
      rw [List.zip_cons_cons] at hp
      rcases List.mem_cons.mp hp with h | h
      · rw [h]; exact List.mem_cons_self x xs
      · exact List.mem_cons_of_mem _ (ih h)

theorem pairwise_fst_zip {l1 : List Timestamp} :
    ∀ {l2 : List (List Rat)}, l1.Pairwise (· ≤ ·) →
      (l1.zip l2).Pairwise (fun a b => a.1 ≤ b.1) := by
  induction l1 with
  | nil => intro l2 _; simp
  | cons x xs ih =>
    intro l2 h
    rcases List.pairwise_cons.mp h with ⟨hx, hxs⟩
    cases l2 with
    | nil => simp
    | cons y ys =>
      rw [List.zip_cons_cons]
      refine List.pairwise_cons.mpr ⟨?_, ih hxs⟩
      intro p hp
      exact hx p.1 (fst_mem_of_mem_zip hp)

theorem filter_split_append (t : Timestamp) :
    ∀ (l : List (Timestamp × List Rat)), l.Pairwise (fun a b => a.1 ≤ b.1) →
      l.filter (fun r => r.1 ≤ t) ++ l.filter (fun r => r.1 > t) = l := by
  intro l
  induction l with
  | nil => intro _; rfl
  | cons x xs ih =>
    intro h
    rcases List.pairwise_cons.mp h with ⟨hx, hxs⟩
    by_cases hxt : x.1 ≤ t
    · rw [List.filter_cons_of_pos (by simpa using hxt),
        List.filter_cons_of_neg (by simpa using hxt), List.cons_append, ih hxs]
    · have hgt : t < x.1 := not_le.mp hxt
      have h1 : xs.filter (fun r => r.1 ≤ t) = [] := by
        refine List.filter_eq_nil_iff.mpr ?_
        intro r hr
        simpa using not_le.mpr (lt_of_lt_of_le hgt (hx r hr))
      have h2 : xs.filter (fun r => r.1 > t) = xs := by
        refine List.filter_eq_self.mpr ?_
        intro r hr
        simpa using lt_of_lt_of_le hgt (hx r hr)
      rw [List.filter_cons_of_neg (by simpa using hxt),
        List.filter_cons_of_pos (by simpa using hgt), h1, h2, List.nil_append]

theorem toPairs_filter_index (df : DataFrame) (p : Timestamp → Bool) :
    (df.filter_index p).toPairs = df.toPairs.filter (fun r => p r.1) := by
  simp only [DataFrame.filter_index, DataFrame.toPairs]
  exact zip_map_fst_snd_eq _

/-- Everything claim C1 asserts of one split: both slices select exactly
the rows on their side of the cutoff, they are disjoint, each preserves
the dataset's order, and their concatenation is the original dataset
(pairs, index and value matrix alike). -/
def SplitSpec (data train test : DataFrame) (t : Timestamp) : Prop :=
  (∀ r, r ∈ train.toPairs ↔ r ∈ data.toPairs ∧ r.1 ≤ t) ∧
  (∀ r, r ∈ test.toPairs ↔ r ∈ data.toPairs ∧ t < r.1) ∧
  (∀ r ∈ train.toPairs, r ∉ test.toPairs) ∧
  train.toPairs.Sublist data.toPairs ∧
  test.toPairs.Sublist data.toPairs ∧
  train.toPairs ++ test.toPairs = data.toPairs ∧
  train.index ++ test.index = data.index ∧
  train.rows ++ test.rows = data.rows

theorem splitSpec_of_filters (data : DataFrame) (t : Timestamp)
    (hsorted : data.index.Pairwise (· ≤ ·))
    (hwf : data.index.length = data.rows.length) :
    SplitSpec data (data.filter_index (fun i => i ≤ t))
      (data.filter_index (fun i => i > t)) t := by
  have hpw : data.toPairs.Pairwise (fun a b => a.1 ≤ b.1) := pairwise_fst_zip hsorted
  have htr := toPairs_filter_index data (fun i => i ≤ t)
  have hte := toPairs_filter_index data (fun i => i > t)
  have happ : (data.filter_index (fun i => i ≤ t)).toPairs ++
      (data.filter_index (fun i => i > t)).toPairs = data.toPairs := by
    rw [htr, hte]; exact filter_split_append t data.toPairs hpw
  refine ⟨?_, ?_, ?_, ?_, ?_, happ, ?_, ?_⟩
  · intro r; rw [htr]; simp [List.mem_filter]
  · intro r; rw [hte]; simp [List.mem_filter]
  · intro r hr hr2
    rw [htr] at hr
    rw [hte] at hr2
    have h1 : r.1 ≤ t := by simpa using (List.mem_filter.mp hr).2
    have h2 : t < r.1 := by simpa using (List.mem_filter.mp hr2).2
    exact absurd h1 (not_le.mpr h2)
  · rw [htr]; exact List.filter_sublist _
  · rw [hte]; exact List.filter_sublist _
  · have happ2 : data.toPairs.filter (fun r => r.1 ≤ t) ++
        data.toPairs.filter (fun r => r.1 > t) = data.toPairs :=
      filter_split_append t data.toPairs hpw
    have h := congrArg (List.map Prod.fst) happ2
    rw [List.map_append] at h
    rw [show data.toPairs.map Prod.fst = data.index from by
      simp only [DataFrame.toPairs]
      exact List.map_fst_zip data.index data.rows (le_of_eq hwf)] at h
    simpa [DataFrame.filter_index] using h
  · have happ2 : data.toPairs.filter (fun r => r.1 ≤ t) ++
        data.toPairs.filter (fun r => r.1 > t) = data.toPairs :=
      filter_split_append t data.toPairs hpw
    have h := congrArg (List.map Prod.snd) happ2
    rw [List.map_append] at h
    rw [show data.toPairs.map Prod.snd = data.rows from by
      simp only [DataFrame.toPairs]
      exact List.map_snd_zip data.index data.rows (ge_of_eq hwf)] at h
    simpa [DataFrame.filter_index] using h

theorem dict_lookup_insert {α : Type} (k k2 : String) (v : α) :
    ∀ d : List (String × α),
      dict_lookup k2 (dict_insert k v d) =
        if k2 = k then some v else dict_lookup k2 d := by
  intro d
  induction d with
  | nil =>
    by_cases h : k2 = k
    · simp [dict_insert, dict_lookup, h]
    · simp [dict_insert, dict_lookup, h, Ne.symm h]
  | cons x xs ih =>
    obtain ⟨a, b⟩ := x
    by_cases ha : a = k
    · subst ha
      by_cases hq : k2 = a
      · subst hq; simp [dict_insert, dict_lookup]
      · simp [dict_insert, dict_lookup, hq, Ne.symm hq]
    · by_cases haq : a = k2
      · subst haq
        simp [dict_insert, dict_lookup, ha]
      · simp [dict_insert, dict_lookup, ha, haq, ih]

theorem mem_map_fst_dict_insert {α : Type} (k k2 : String) (v : α) :
    ∀ d : List (String × α),
      (k2 ∈ (dict_insert k v d).map Prod.fst) ↔ (k2 = k ∨ k2 ∈ d.map Prod.fst) := by
  intro d
  induction d with
  | nil => simp [dict_insert]
  | cons x xs ih =>
    obtain ⟨a, b⟩ := x
    by_cases ha : a = k
    · subst ha
      simp [dict_insert]
    · simp [dict_insert, ha, ih]
      tauto

theorem nodup_map_fst_dict_insert {α : Type} (k : String) (v : α) :
    ∀ d : List (String × α),
      (d.map Prod.fst).Nodup → ((dict_insert k v d).map Prod.fst).Nodup := by
  intro d
  induction d with
  | nil => intro _; simp [dict_insert]
  | cons x xs ih =>
    obtain ⟨a, b⟩ := x
    intro h
    rw [List.map_cons] at h
    rcases List.nodup_cons.mp h with ⟨hmem, hxs⟩
    by_cases ha : a = k
    · subst ha
      rw [show dict_insert a v ((a, b) :: xs) = (a, v) :: xs from by
        simp [dict_insert]]
      rw [List.map_cons]
      exact List.nodup_cons.mpr ⟨hmem, hxs⟩
    · have : (dict_insert k v ((a, b) :: xs)).map Prod.fst =
          a :: (dict_insert k v xs).map Prod.fst := by simp [dict_insert, ha]
      rw [this]
      refine List.nodup_cons.mpr ⟨?_, ih hxs⟩
      intro hcontra
      rcases (mem_map_fst_dict_insert k a v xs).mp hcontra with h2 | h2
      · exact ha h2
      · exact hmem h2

theorem dict_lookup_foldl_insert {α ι : Type} (key : ι → String) (val : ι → α) (k : String) :
    ∀ (ms : List ι) (d : List (String × α)),
      dict_lookup k (ms.foldl (fun d2 m => dict_insert (key m) (val m) d2) d) =
        (ms.reverse.find? (fun m => key m == k)).elim (dict_lookup k d) (fun m => some (val m)) := by
  intro ms
  induction ms with
  | nil => intro d; rfl
  | cons m ms ih =>
    intro d
    rw [List.foldl_cons, ih, List.reverse_cons, List.find?_append]
    cases hfind : ms.reverse.find? (fun m2 => key m2 == k) with
    | some m2 => simp [Option.orElse]
    | none =>
      simp only [Option.orElse, Option.elim]
      rw [dict_lookup_insert]
      by_cases h : k = key m
      · simp [List.find?, h]
      · have : (key m == k) = false := by
          simpa using fun hh => h hh.symm
        simp [List.find?, this, h]

theorem mem_keys_foldl_insert {α ι : Type} (key : ι → String) (val : ι → α) (k : String) :
    ∀ (ms : List ι) (d : List (String × α)),
      (k ∈ ((ms.foldl (fun d2 m => dict_insert (key m) (val m) d2) d).map Prod.fst)) ↔
        (k ∈ ms.map key ∨ k ∈ d.map Prod.fst) := by
  intro ms
  induction ms with
  | nil => intro d; simp
  | cons m ms ih =>
    intro d
    rw [List.foldl_cons, ih, mem_map_fst_dict_insert, List.map_cons, List.mem_cons]
    tauto

theorem nodup_keys_foldl_insert {α ι : Type} (key : ι → String) (val : ι → α) :
    ∀ (ms : List ι) (d : List (String × α)),
      (d.map Prod.fst).Nodup →
      ((ms.foldl (fun d2 m => dict_insert (key m) (val m) d2) d).map Prod.fst).Nodup := by
  intro ms
  induction ms with
  | nil => intro d h; exact h
  | cons m ms ih =>
    intro d h
    rw [List.foldl_cons]
    exact ih _ (nodup_map_fst_dict_insert _ _ _ h)

theorem apply_model_call_ok (s : SignalAnalysis) (tr te : DataFrame) (c : SACall)
    (h1 : s.train_set = some tr) (h2 : s.test_set = some te)
    (hc : c.2.1 = true → c.2.2.isSome) :
    s.apply_model c.1 c.2.1 c.2.2 = .ok { s with
      scores := dict_insert (sa_call_model tr c).name
        (sa_score_of (sa_call_model tr c) tr te) s.scores,
      results := dict_insert (sa_call_model tr c).name
        (sa_result_of (sa_call_model tr c) tr te) s.results } := by
  obtain ⟨mdl, gs, ps⟩ := c
  cases gs with
  | false => simp [SignalAnalysis.apply_model, sa_call_model, h1, h2]
  | true =>
    cases ps with
    | none => exact absurd (hc rfl) (by simp)
    | some p => simp [SignalAnalysis.apply_model, sa_call_model, h1, h2]

theorem apply_model_seq_ok (tr te : DataFrame) :
    ∀ (cs : List SACall) (s : SignalAnalysis),
      s.train_set = some tr → s.test_set = some te →
      (∀ c ∈ cs, c.2.1 = true → c.2.2.isSome) →
      s.apply_model_seq cs = .ok { s with
        scores := cs.foldl (fun d c => dict_insert (sa_call_model tr c).name
          (sa_score_of (sa_call_model tr c) tr te) d) s.scores,
        results := cs.foldl (fun d c => dict_insert (sa_call_model tr c).name
          (sa_result_of (sa_call_model tr c) tr te) d) s.results } := by
  intro cs
  induction cs with
  | nil => intro s h1 h2 _; rfl
  | cons c cs ih =>
    intro s h1 h2 hc
    rw [SignalAnalysis.apply_model_seq,
      apply_model_call_ok s tr te c h1 h2 (hc c (List.mem_cons_self c cs))]
    exact ih _ (by simpa using h1) (by simpa using h2)
      (fun c2 h => hc c2 (List.mem_cons_of_mem c h))

theorem mv_apply_model_call_ok (m : MultiVariateSignalAnalysis) (mtr mte : DataFrame)
    (c : MVCall) (h1 : m.train_set = some mtr) (h2 : m.test_set = some mte) :
    m.apply_model c.1 c.2.1 c.2.2 = .ok { m with
      results := dict_insert (mv_call_model mtr c).name
        (mv_result_of (mv_call_model mtr c) mtr mte) m.results,
      scores := dict_insert (mv_call_model mtr c).name
        (mv_score_of (mv_call_model mtr c) mtr mte) m.scores } := by
  obtain ⟨mdl, gs, ps⟩ := c
  cases gs with
  | false => simp [MultiVariateSignalAnalysis.apply_model, mv_call_model, h1, h2]
  | true => simp [MultiVariateSignalAnalysis.apply_model, mv_call_model, h1, h2]

theorem mv_apply_model_seq_ok (mtr mte : DataFrame) :
    ∀ (cs : List MVCall) (m : MultiVariateSignalAnalysis),
      m.train_set = some mtr → m.test_set = some mte →
      m.apply_model_seq cs = .ok { m with
        results := cs.foldl (fun d c => dict_insert (mv_call_model mtr c).name
          (mv_result_of (mv_call_model mtr c) mtr mte) d) m.results,
        scores := cs.foldl (fun d c => dict_insert (mv_call_model mtr c).name
          (mv_score_of (mv_call_model mtr c) mtr mte) d) m.scores } := by
  intro cs
  induction cs with
  | nil => intro m h1 h2; rfl
  | cons c cs ih =>
    intro m h1 h2
    rw [MultiVariateSignalAnalysis.apply_model_seq,
      mv_apply_model_call_ok m mtr mte c h1 h2]
    exact ih _ (by simpa using h1) (by simpa using h2)

theorem dict_seq_spec {α ι : Type} (key : ι → String) (val : ι → α) (ms : List ι) :
    ((ms.foldl (fun d c => dict_insert (key c) (val c) d) []).map Prod.fst).Nodup ∧
    (∀ k, k ∈ (ms.foldl (fun d c => dict_insert (key c) (val c) d) []).map Prod.fst ↔
      k ∈ ms.map key) ∧
    (∀ k, dict_lookup k (ms.foldl (fun d c => dict_insert (key c) (val c) d) []) =
      (ms.reverse.find? (fun c => key c == k)).map val) := by
  refine ⟨nodup_keys_foldl_insert key val ms [] (by simp), ?_, ?_⟩
  · intro k
    simpa using mem_keys_foldl_insert key val k ms []
  · intro k
    rw [dict_lookup_foldl_insert key val k ms []]
    cases ms.reverse.find? (fun c => key c == k) <;> rfl

theorem mv_pred_loop_ok (te : DataFrame) (n : Nat) :
    ∀ (rs : List (String × MVResult)) (es : List (String × MVResult))
      (ls ks : List String),
      mv_pred_loop te n rs = .ok (es, ls, ks) →
      es = rs.map (fun e =>
        (e.1, { e.2 with predictions := { e.2.predictions with index := te.index } })) ∧
      ks = rs.map Prod.fst := by
  intro rs
  induction rs with
  | nil =>
    intro es ls ks h
    simp only [mv_pred_loop] at h
    obtain ⟨h1, h2, h3⟩ := by simpa using h
    subst h1; subst h3
    simp
  | cons x xs ih =>
    intro es ls ks h
    obtain ⟨k, r⟩ := x
    simp only [mv_pred_loop] at h
    split at h
    · exact absurd h (by simp)
    · cases hrec : mv_pred_loop te n xs with
      | error e => rw [hrec] at h; exact absurd h (by simp)
      | ok tup =>
        obtain ⟨es2, ls2, ks2⟩ := tup
        rw [hrec] at h
        obtain ⟨h1, h2, h3⟩ := by simpa using h
        obtain ⟨ihe, ihk⟩ := ih es2 ls2 ks2 hrec
        subst h1; subst h3
        simp [ihe, ihk]

theorem vis_forecast_loop_spec (n : Nat) :
    ∀ rs : List (String × ModelRecord),
      (vis_forecast_loop n rs).2.1 =
        rs.filterMap (fun e => if e.2.forecast.isSome then some e.1 else none) ∧
      (vis_forecast_loop n rs).2.2 =
        rs.filterMap (fun e => if e.2.forecast.isSome then none
          else some ("No forecasts have been computed with " ++ e.1)) := by
  intro rs
  induction rs with
  | nil => exact ⟨rfl, rfl⟩
  | cons x xs ih =>
    obtain ⟨k, r⟩ := x
    obtain ⟨ih1, ih2⟩ := ih
    cases hr : r.forecast with
    | none => simp [vis_forecast_loop, hr, ih1, ih2, List.filterMap_cons]
    | some f => simp [vis_forecast_loop, hr, ih1, ih2, List.filterMap_cons]

theorem vis_show_predictions_keeps_signal (s : Signal) (b : Bool) (s2 : Signal)
    (out : RenderOut) (h : Visualization.show_predictions s b = .ok (s2, out)) :
    s2 = s := by
  unfold Visualization.show_predictions at h
  split at h
  · exact absurd h (by simp)
  · split at h
    · split at h
      · exact absurd h (by simp)
      · split at h
        · exact absurd h (by simp)
        · split at h
          · exact absurd h (by simp)
          · obtain ⟨h1, h2⟩ := by simpa using h
            exact h1.symm
    · obtain ⟨h1, h2⟩ := by simpa using h
      exact h1.symm

theorem vis_show_forecast_keeps_signal (s : Signal) (b : Bool) (s2 : Signal)
    (out : RenderOut) (h : Visualization.show_forecast s b = .ok (s2, out)) :
    s2 = s := by
  unfold Visualization.show_forecast at h
  split at h
  · split at h
    · exact absurd h (by simp)
    · split at h
      · exact absurd h (by simp)
      · split at h
        · exact absurd h (by simp)
        · obtain ⟨h1, h2⟩ := by simpa using h
          exact h1.symm
  · obtain ⟨h1, h2⟩ := by simpa using h
    exact h1.symm

theorem sa_show_predictions_keeps_state (s : SignalAnalysis) (s2 : SignalAnalysis)
    (out : RenderOut) (h : s.show_predictions = .ok (s2, out)) :
    s2 = s := by
  unfold SignalAnalysis.show_predictions at h
  split at h
  · exact absurd h (by simp)
  · split at h
    · exact absurd h (by simp)
    · obtain ⟨h1, h2⟩ := by simpa using h
      exact h1.symm

/-!  Concrete fixtures used by the witnesses and counterexamples. -/

/-- A small univariate dataset (four monthly observations). -/
def ex_df : DataFrame :=
  { cols := ["passengers"], index := [0, 1, 2, 3], rows := [[10], [20], [30], [40]] }

/-- The train slice of `ex_df` at cutoff 2. -/
def ex_train : DataFrame :=
  { cols := ["passengers"], index := [0, 1, 2], rows := [[10], [20], [30]] }

/-- The test slice of `ex_df` at cutoff 2. -/
def ex_test : DataFrame :=
  { cols := ["passengers"], index := [3], rows := [[40]] }

/-- A freshly constructed univariate orchestrator. -/
def ex_sa : SignalAnalysis := SignalAnalysis.init ex_df

/-- The univariate orchestrator after `split_cv(2)`. -/
def ex_sa2 : SignalAnalysis :=
  { data := ex_df, train_set := some ex_train, test_set := some ex_test,
    scores := [], results := [] }

/-- The univariate orchestrator with one recorded model. -/
def ex_sa_res : SignalAnalysis :=
  { data := ex_df, train_set := some ex_train, test_set := some ex_test,
    scores := [("ExponentialSmoothing", { R2_score := 1, RMSE_score := 0 })],
    results := [("ExponentialSmoothing", { test_set := ex_test, predictions := [40] })] }

/-- The best model returned by `ex_model.gridsearch`. -/
def ex_best : ForecastModel :=
  { name := "ExponentialSmoothing", fit_predict := fun _ n => List.replicate n 41 }

/-- A concrete collaborator model; its `gridsearch` returns the darts
triple with best score 7. -/
def ex_model : SAModel :=
  { name := "ExponentialSmoothing",
    fit_predict := fun _ n => List.replicate n 40,
    gridsearch := fun _ _ _ _ => (ex_best, [], 7) }

/-- A second collaborator model with a different class name. -/
def ex_model2 : SAModel :=
  { name := "Prophet",
    fit_predict := fun _ n => List.replicate n 30,
    gridsearch := fun _ _ _ _ => (ex_best, [], 7) }

/-- A third collaborator model of the same class name as `ex_model` but
with different predictions (for the overwrite claim). -/
def ex_model3 : SAModel :=
  { name := "ExponentialSmoothing",
    fit_predict := fun _ n => List.replicate n 20,
    gridsearch := fun _ _ _ _ => (ex_best, [], 7) }

/-- A small multivariate dataset. -/
def ex_mv_df : DataFrame :=
  { cols := ["Hol", "VFR"], index := [0, 1, 2, 3],
    rows := [[1, 2], [3, 4], [5, 6], [7, 8]] }

/-- The train slice of `ex_mv_df` at cutoff 1. -/
def ex_mv_train : DataFrame :=
  { cols := ["Hol", "VFR"], index := [0, 1], rows := [[1, 2], [3, 4]] }

/-- The test slice of `ex_mv_df` at cutoff 1. -/
def ex_mv_test : DataFrame :=
  { cols := ["Hol", "VFR"], index := [2, 3], rows := [[5, 6], [7, 8]] }

/-- A freshly constructed multivariate orchestrator. -/
def ex_mv : MultiVariateSignalAnalysis := MultiVariateSignalAnalysis.init ex_mv_df

/-- The multivariate orchestrator after `split_cv(1)`. -/
def ex_mv2 : MultiVariateSignalAnalysis :=
  { data := ex_mv_df, train_set := some ex_mv_train, test_set := some ex_mv_test,
    scores := [], results := [] }

/-- The best model returned by `ex_mv_model.gridsearch`. -/
def ex_mv_best : MVForecastModel :=
  { name := "BestVARIMA", fit_predict := fun _ n => List.replicate n [1, 1] }

/-- A concrete multivariate collaborator; its `gridsearch` ignores the
(possibly absent) parameter grid and returns the pair form. -/
def ex_mv_model : MVModel :=
  { name := "VARIMA",
    fit_predict := fun _ n => List.replicate n [0, 0],
    gridsearch := fun _ _ _ _ => (ex_mv_best, []) }

/-- A multivariate orchestrator with one recorded model whose stored
prediction frame still carries its fresh `RangeIndex` `[0, 1]`. -/
def ex_mv_res : MultiVariateSignalAnalysis :=
  { data := ex_mv_df, train_set := some ex_mv_train, test_set := some ex_mv_test,
    scores := [("XGBModel", { MAPE_score := 50 })],
    results := [("XGBModel",
      { test_set := ex_mv_test,
        predictions := { cols := ["Hol", "VFR"], index := [0, 1], rows := [[1, 1], [2, 2]] } })] }

/-- `ex_mv_res` after `show_predictions` has reassigned the stored
prediction frame's index to the test index `[2, 3]`. -/
def ex_mv_mut : MultiVariateSignalAnalysis :=
  { data := ex_mv_df, train_set := some ex_mv_train, test_set := some ex_mv_test,
    scores := [("XGBModel", { MAPE_score := 50 })],
    results := [("XGBModel",
      { test_set := ex_mv_test,
        predictions := { cols := ["Hol", "VFR"], index := [2, 3], rows := [[1, 1], [2, 2]] } })] }

/-- The rendering produced by `ex_mv_res.show_predictions`. -/
def ex_mv_out : RenderOut :=
  { labels := actual_labels 2 ++ (model_labels "XGBModel" 2 ++ []),
    plotted := ["XGBModel"], warnings := [] }

/-- Stored predictions of a `pasts` model record. -/
def ex_ts : TSObj :=
  { values := [[40]], columns := ["passengers"], time_index := [3] }

/-- A model record with forecast output. -/
def ex_record_fc : ModelRecord :=
  { predictions := ex_ts, forecast := some ex_ts,
    confidence_interval := none, forecast_interval := none }

/-- A model record without forecast output. -/
def ex_record_nofc : ModelRecord :=
  { predictions := ex_ts, forecast := none,
    confidence_interval := none, forecast_interval := none }

/-- A populated `pasts` signal: one model with and one without forecasts. -/
def ex_signal : Signal :=
  { data := ex_df, test_data := ex_test,
    models := [("AutoARIMA", ex_record_fc), ("Prophet", ex_record_nofc)] }

/-- A `pasts` signal on which no model has been applied. -/
def ex_signal_empty : Signal :=
  { data := ex_df, test_data := ex_test, models := [] }

/-- Rendering produced by `show_predictions` on `ex_signal`. -/
def ex_vis_pred_out : RenderOut :=
  { labels := actual_labels 1 ++ (model_labels "AutoARIMA" 1 ++ (model_labels "Prophet" 1 ++ [])),
    plotted := ["AutoARIMA", "Prophet"], warnings := [] }

/-- Rendering produced by `show_forecast` on `ex_signal`: the model
without forecasts is skipped with a warning. -/
def ex_vis_fc_out : RenderOut :=
  { labels := actual_labels 1 ++ (model_labels "AutoARIMA" 1 ++ []),
    plotted := ["AutoARIMA"],
    warnings := ["No forecasts have been computed with Prophet"] }

/-!  Claims. -/

/-- Claim C1: for every dataset and cutoff timestamp, `split_cv` (of
both `SignalAnalysis` and `MultiVariateSignalAnalysis`) partitions the
dataset into the rows at or before the cutoff (train) and the rows
strictly after it (test); the slices are disjoint, order-preserving,
and their concatenation reconstructs the dataset exactly, with no
overlap and no gaps. -/
theorem C1_split_cv_partitions (s : SignalAnalysis) (m : MultiVariateSignalAnalysis)
    (t : Timestamp)
    (hs : s.data.index.Pairwise (· ≤ ·)) (hws : s.data.index.length = s.data.rows.length)
    (hm : m.data.index.Pairwise (· ≤ ·)) (hwm : m.data.index.length = m.data.rows.length) :
    ∃ str ste mtr mte,
      s.split_cv t = .ok { s with train_set := some str, test_set := some ste } ∧
      m.split_cv t = .ok { m with train_set := some mtr, test_set := some mte } ∧
      SplitSpec s.data str ste t ∧ SplitSpec m.data mtr mte t :=
  ⟨_, _, _, _, rfl, rfl, splitSpec_of_filters s.data t hs hws,
    splitSpec_of_filters m.data t hm hwm⟩

/-- Witness for C1 at the concrete dataset `ex_df` / `ex_mv_df` and
cutoff 2. -/
theorem C1_split_cv_partitions_witness :
    ∃ str ste mtr mte,
      ex_sa.split_cv 2 = .ok { ex_sa with train_set := some str, test_set := some ste } ∧
      ex_mv.split_cv 2 = .ok { ex_mv with train_set := some mtr, test_set := some mte } ∧
      SplitSpec ex_sa.data str ste 2 ∧ SplitSpec ex_mv.data mtr mte 2 :=
  C1_split_cv_partitions ex_sa ex_mv 2 (by decide) (by decide) (by decide) (by decide)

/-- Claim C2 counterexample: with the cutoff 100 above the whole index
range of `ex_df` (so the test slice is empty), `split_cv` does not fail:
it returns normally with an empty test slice. -/
theorem C2_counterexample :
    ex_sa.split_cv 100 = .ok
      { data := ex_df,
        train_set := some { cols := ["passengers"], index := [0, 1, 2, 3],
                            rows := [[10], [20], [30], [40]] },
        test_set := some { cols := ["passengers"], index := [], rows := [] },
        scores := [], results := [] } := rfl

/-- Claim C2 (amended): `split_cv` performs no validation of the cutoff
and never fails; a cutoff at or above every index yields an empty test
slice (univariate case shown) and a cutoff strictly below every index
yields an empty train slice (multivariate case shown), the other slice
being the usual filter of the data. -/
theorem C2_split_cv_no_validation (s : SignalAnalysis) (m : MultiVariateSignalAnalysis)
    (t u : Timestamp)
    (hhigh : ∀ i ∈ s.data.index, i ≤ t)
    (hlow : ∀ i ∈ m.data.index, u < i) :
    s.split_cv t = .ok { s with
      train_set := some (s.data.filter_index (fun i => i ≤ t)),
      test_set := some { cols := s.data.cols, index := [], rows := [] } } ∧
    m.split_cv u = .ok { m with
      train_set := some { cols := m.data.cols, index := [], rows := [] },
      test_set := some (m.data.filter_index (fun i => i > u)) } := by
  constructor
  · have hnil : s.data.toPairs.filter (fun r => r.1 > t) = [] := by
      refine List.filter_eq_nil_iff.mpr ?_
      intro r hr
      simpa using not_lt.mpr (hhigh r.1 (fst_mem_of_mem_zip hr))
    have hempty : s.data.filter_index (fun i => i > t) =
        { cols := s.data.cols, index := [], rows := [] } := by
      simp [DataFrame.filter_index, hnil]
    rw [SignalAnalysis.split_cv, hempty]
  · have hnil : m.data.toPairs.filter (fun r => r.1 ≤ u) = [] := by
      refine List.filter_eq_nil_iff.mpr ?_
      intro r hr
      simpa using not_le.mpr (hlow r.1 (fst_mem_of_mem_zip hr))
    have hempty : m.data.filter_index (fun i => i ≤ u) =
        { cols := m.data.cols, index := [], rows := [] } := by
      simp [DataFrame.filter_index, hnil]
    rw [MultiVariateSignalAnalysis.split_cv, hempty]

/-- Witness for the amended C2: cutoff 100 empties the test slice of
`ex_sa`, cutoff -5 empties the train slice of `ex_mv`; both calls
return normally. -/
theorem C2_split_cv_no_validation_witness :
    ex_sa.split_cv 100 = .ok { ex_sa with
      train_set := some (ex_sa.data.filter_index (fun i => i ≤ 100)),
      test_set := some { cols := ex_sa.data.cols, index := [], rows := [] } } ∧
    ex_mv.split_cv (-5) = .ok { ex_mv with
      train_set := some { cols := ex_mv.data.cols, index := [], rows := [] },
      test_set := some (ex_mv.data.filter_index (fun i => i > -5)) } :=
  C2_split_cv_no_validation ex_sa ex_mv 100 (-5) (by decide) (by decide)

/-- Claim C3 counterexample: on a split multivariate orchestrator,
`apply_model(model, gridsearch=True, parameters=None)` raises no
configuration error: the collaborator's gridsearch is invoked with the
absent parameter grid and the model it returns is recorded. -/
theorem C3_counterexample :
    ex_mv2.apply_model ex_mv_model true none = .ok { ex_mv2 with
      results := [("BestVARIMA", mv_result_of ex_mv_best ex_mv_train ex_mv_test)],
      scores := [("BestVARIMA", mv_score_of ex_mv_best ex_mv_train ex_mv_test)] } := rfl

/-- Claim C3 (amended): a gridsearch request without a parameter space
is rejected only by `SignalAnalysis.apply_model` (user-facing
`Exception("please enter the parameters")`); the multivariate
`apply_model` performs no such check and proceeds with the search,
passing `parameters = None` to the collaborator's gridsearch and
recording the model it returns. -/
theorem C3_gridsearch_without_parameters (s : SignalAnalysis) (tr : DataFrame)
    (mdl : SAModel) (h1 : s.train_set = some tr)
    (m : MultiVariateSignalAnalysis) (mtr mte : DataFrame) (mm : MVModel)
    (h2 : m.train_set = some mtr) (h3 : m.test_set = some mte) :
    s.apply_model mdl true none = .error (.exception "please enter the parameters") ∧
    m.apply_model mm true none = .ok { m with
      results := dict_insert (mm.gridsearch none mtr (1/2 : Rat) 12).1.name
        (mv_result_of (mm.gridsearch none mtr (1/2 : Rat) 12).1 mtr mte) m.results,
      scores := dict_insert (mm.gridsearch none mtr (1/2 : Rat) 12).1.name
        (mv_score_of (mm.gridsearch none mtr (1/2 : Rat) 12).1 mtr mte) m.scores } := by
  constructor
  · simp [SignalAnalysis.apply_model, h1]
  · simp [MultiVariateSignalAnalysis.apply_model, h2, h3]

/-- Witness for the amended C3 at the concrete split orchestrators and
collaborators. -/
theorem C3_gridsearch_without_parameters_witness :
    ex_sa2.apply_model ex_model true none =
      .error (.exception "please enter the parameters") ∧
    ex_mv2.apply_model ex_mv_model true none = .ok { ex_mv2 with
      results := dict_insert (ex_mv_model.gridsearch none ex_mv_train (1/2 : Rat) 12).1.name
        (mv_result_of (ex_mv_model.gridsearch none ex_mv_train (1/2 : Rat) 12).1
          ex_mv_train ex_mv_test) ex_mv2.results,
      scores := dict_insert (ex_mv_model.gridsearch none ex_mv_train (1/2 : Rat) 12).1.name
        (mv_score_of (ex_mv_model.gridsearch none ex_mv_train (1/2 : Rat) 12).1
          ex_mv_train ex_mv_test) ex_mv2.scores } :=
  C3_gridsearch_without_parameters ex_sa2 ex_train ex_model rfl
    ex_mv2 ex_mv_train ex_mv_test ex_mv_model rfl rfl

/-- Claim C4: after any sequence of `apply_model` calls — plain or
gridsearch, on either orchestrator — starting from fresh dictionaries,
`results` and `scores` hold exactly one entry per distinct class name
of the models applied so far (the gridsearch-selected model on search
calls), and each name maps to the record of the **last** applied model
of that name: reapplying an already-applied class name overwrites its
prior entry instead of adding a second.  (Univariate search calls carry
a grid, since a grid-less search raises before recording anything.) -/
theorem C4_results_last_write_wins (s : SignalAnalysis) (tr te : DataFrame)
    (cs : List SACall)
    (h1 : s.train_set = some tr) (h2 : s.test_set = some te)
    (h3 : s.scores = []) (h4 : s.results = [])
    (hc : ∀ c ∈ cs, c.2.1 = true → c.2.2.isSome)
    (m : MultiVariateSignalAnalysis) (mtr mte : DataFrame) (ds : List MVCall)
    (hm1 : m.train_set = some mtr) (hm2 : m.test_set = some mte)
    (hm3 : m.scores = []) (hm4 : m.results = []) :
    (∃ s2, s.apply_model_seq cs = .ok s2 ∧
      (s2.results.map Prod.fst).Nodup ∧
      (s2.scores.map Prod.fst).Nodup ∧
      (∀ k, k ∈ s2.results.map Prod.fst ↔
        k ∈ cs.map (fun c => (sa_call_model tr c).name)) ∧
      (∀ k, k ∈ s2.scores.map Prod.fst ↔
        k ∈ cs.map (fun c => (sa_call_model tr c).name)) ∧
      (∀ k, dict_lookup k s2.results =
        (cs.reverse.find? (fun c => (sa_call_model tr c).name == k)).map
          (fun c => sa_result_of (sa_call_model tr c) tr te)) ∧
      (∀ k, dict_lookup k s2.scores =
        (cs.reverse.find? (fun c => (sa_call_model tr c).name == k)).map
          (fun c => sa_score_of (sa_call_model tr c) tr te))) ∧
    (∃ m2, m.apply_model_seq ds = .ok m2 ∧
      (m2.results.map Prod.fst).Nodup ∧
      (m2.scores.map Prod.fst).Nodup ∧
      (∀ k, k ∈ m2.results.map Prod.fst ↔
        k ∈ ds.map (fun c => (mv_call_model mtr c).name)) ∧
      (∀ k, k ∈ m2.scores.map Prod.fst ↔
        k ∈ ds.map (fun c => (mv_call_model mtr c).name)) ∧
      (∀ k, dict_lookup k m2.results =
        (ds.reverse.find? (fun c => (mv_call_model mtr c).name == k)).map
          (fun c => mv_result_of (mv_call_model mtr c) mtr mte)) ∧
      (∀ k, dict_lookup k m2.scores =
        (ds.reverse.find? (fun c => (mv_call_model mtr c).name == k)).map
          (fun c => mv_score_of (mv_call_model mtr c) mtr mte))) := by
  have hsa := apply_model_seq_ok tr te cs s h1 h2 hc
  rw [h3, h4] at hsa
  have hmv := mv_apply_model_seq_ok mtr mte ds m hm1 hm2
  rw [hm3, hm4] at hmv
  refine ⟨⟨_, hsa, ?_, ?_, ?_, ?_, ?_, ?_⟩, ⟨_, hmv, ?_, ?_, ?_, ?_, ?_, ?_⟩⟩
  · exact (dict_seq_spec (fun c : SACall => (sa_call_model tr c).name)
      (fun c => sa_result_of (sa_call_model tr c) tr te) cs).1
  · exact (dict_seq_spec (fun c : SACall => (sa_call_model tr c).name)
      (fun c => sa_score_of (sa_call_model tr c) tr te) cs).1
  · exact (dict_seq_spec (fun c : SACall => (sa_call_model tr c).name)
      (fun c => sa_result_of (sa_call_model tr c) tr te) cs).2.1
  · exact (dict_seq_spec (fun c : SACall => (sa_call_model tr c).name)
      (fun c => sa_score_of (sa_call_model tr c) tr te) cs).2.1
  · exact (dict_seq_spec (fun c : SACall => (sa_call_model tr c).name)
      (fun c => sa_result_of (sa_call_model tr c) tr te) cs).2.2
  · exact (dict_seq_spec (fun c : SACall => (sa_call_model tr c).name)
      (fun c => sa_score_of (sa_call_model tr c) tr te) cs).2.2
  · exact (dict_seq_spec (fun c : MVCall => (mv_call_model mtr c).name)
      (fun c => mv_result_of (mv_call_model mtr c) mtr mte) ds).1
  · exact (dict_seq_spec (fun c : MVCall => (mv_call_model mtr c).name)
      (fun c => mv_score_of (mv_call_model mtr c) mtr mte) ds).1
  · exact (dict_seq_spec (fun c : MVCall => (mv_call_model mtr c).name)
      (fun c => mv_result_of (mv_call_model mtr c) mtr mte) ds).2.1
  · exact (dict_seq_spec (fun c : MVCall => (mv_call_model mtr c).name)
      (fun c => mv_score_of (mv_call_model mtr c) mtr mte) ds).2.1
  · exact (dict_seq_spec (fun c : MVCall => (mv_call_model mtr c).name)
      (fun c => mv_result_of (mv_call_model mtr c) mtr mte) ds).2.2
  · exact (dict_seq_spec (fun c : MVCall => (mv_call_model mtr c).name)
      (fun c => mv_score_of (mv_call_model mtr c) mtr mte) ds).2.2

/-- A concrete univariate call sequence: two plain calls and a
gridsearch call whose selected best model repeats the class name
`ExponentialSmoothing` of the first call. -/
def ex_calls : List SACall :=
  [(ex_model, false, none), (ex_model2, false, none), (ex_model3, true, some [])]

/-- A concrete multivariate call sequence: a plain call, a gridsearch
call (with no grid supplied), and a plain call repeating the class name
`VARIMA` of the first. -/
def ex_mv_calls : List MVCall :=
  [(ex_mv_model, false, none), (ex_mv_model, true, none), (ex_mv_model, false, some [])]

/-- Witness for C4 at the concrete call sequences `ex_calls` (class
name `ExponentialSmoothing` applied twice, once via gridsearch) and
`ex_mv_calls` (class name `VARIMA` applied twice). -/
theorem C4_results_last_write_wins_witness :
    (∃ s2, ex_sa2.apply_model_seq ex_calls = .ok s2 ∧
      (s2.results.map Prod.fst).Nodup ∧
      (s2.scores.map Prod.fst).Nodup ∧
      (∀ k, k ∈ s2.results.map Prod.fst ↔
        k ∈ ex_calls.map (fun c => (sa_call_model ex_train c).name)) ∧
      (∀ k, k ∈ s2.scores.map Prod.fst ↔
        k ∈ ex_calls.map (fun c => (sa_call_model ex_train c).name)) ∧
      (∀ k, dict_lookup k s2.results =
        (ex_calls.reverse.find? (fun c => (sa_call_model ex_train c).name == k)).map
          (fun c => sa_result_of (sa_call_model ex_train c) ex_train ex_test)) ∧
      (∀ k, dict_lookup k s2.scores =
        (ex_calls.reverse.find? (fun c => (sa_call_model ex_train c).name == k)).map
          (fun c => sa_score_of (sa_call_model ex_train c) ex_train ex_test))) ∧
    (∃ m2, ex_mv2.apply_model_seq ex_mv_calls = .ok m2 ∧
      (m2.results.map Prod.fst).Nodup ∧
      (m2.scores.map Prod.fst).Nodup ∧
      (∀ k, k ∈ m2.results.map Prod.fst ↔
        k ∈ ex_mv_calls.map (fun c => (mv_call_model ex_mv_train c).name)) ∧
      (∀ k, k ∈ m2.scores.map Prod.fst ↔
        k ∈ ex_mv_calls.map (fun c => (mv_call_model ex_mv_train c).name)) ∧
      (∀ k, dict_lookup k m2.results =
        (ex_mv_calls.reverse.find? (fun c => (mv_call_model ex_mv_train c).name == k)).map
          (fun c => mv_result_of (mv_call_model ex_mv_train c) ex_mv_train ex_mv_test)) ∧
      (∀ k, dict_lookup k m2.scores =
        (ex_mv_calls.reverse.find? (fun c => (mv_call_model ex_mv_train c).name == k)).map
          (fun c => mv_score_of (mv_call_model ex_mv_train c) ex_mv_train ex_mv_test))) :=
  C4_results_last_write_wins ex_sa2 ex_train ex_test ex_calls rfl rfl rfl rfl
    (by intro c hc2; fin_cases hc2 <;> simp)
    ex_mv2 ex_mv_train ex_mv_test ex_mv_calls rfl rfl rfl rfl

/-- Claim C5: `apply_model` fits the (possibly gridsearch-selected)
model on the train slice, requests a prediction of exactly as many
steps as the test slice has rows, and stores the predictions together
with the test set (one prediction per test row when the collaborator
honours the requested horizon).  Shown for the plain and gridsearch
paths of the univariate orchestrator and the plain path of the
multivariate one. -/
theorem C5_apply_model_fit_predict (s : SignalAnalysis) (tr te : DataFrame)
    (mdl : SAModel) (ps : ParamGrid)
    (h1 : s.train_set = some tr) (h2 : s.test_set = some te)
    (m : MultiVariateSignalAnalysis) (mtr mte : DataFrame) (mm : MVModel)
    (h3 : m.train_set = some mtr) (h4 : m.test_set = some mte)
    (hlen : ∀ n, (mdl.fit_predict tr n).length = n) :
    (∃ s2, s.apply_model mdl false none = .ok s2 ∧
      dict_lookup mdl.name s2.results =
        some { test_set := te, predictions := mdl.fit_predict tr te.index.length } ∧
      (mdl.fit_predict tr te.index.length).length = te.index.length) ∧
    (∃ s2, s.apply_model mdl true (some ps) = .ok s2 ∧
      dict_lookup (mdl.gridsearch ps tr (1/2 : Rat) 5).1.name s2.results =
        some { test_set := te,
               predictions := (mdl.gridsearch ps tr (1/2 : Rat) 5).1.fit_predict
                 tr te.index.length }) ∧
    (∃ m2, m.apply_model mm false none = .ok m2 ∧
      dict_lookup mm.name m2.results =
        some (mv_result_of mm.toMVForecastModel mtr mte) ∧
      (mv_result_of mm.toMVForecastModel mtr mte).predictions.rows =
        mm.fit_predict mtr mte.index.length) := by
  refine ⟨⟨{ s with
      scores := dict_insert mdl.name (sa_score_of mdl.toForecastModel tr te) s.scores,
      results := dict_insert mdl.name (sa_result_of mdl.toForecastModel tr te) s.results },
      ?_, ?_, hlen _⟩,
    ⟨{ s with
      scores := dict_insert (mdl.gridsearch ps tr (1/2 : Rat) 5).1.name
        (sa_score_of (mdl.gridsearch ps tr (1/2 : Rat) 5).1 tr te) s.scores,
      results := dict_insert (mdl.gridsearch ps tr (1/2 : Rat) 5).1.name
        (sa_result_of (mdl.gridsearch ps tr (1/2 : Rat) 5).1 tr te) s.results },
      ?_, ?_⟩,
    ⟨{ m with
      results := dict_insert mm.name (mv_result_of mm.toMVForecastModel mtr mte) m.results,
      scores := dict_insert mm.name (mv_score_of mm.toMVForecastModel mtr mte) m.scores },
      ?_, ?_, rfl⟩⟩
  · simp [SignalAnalysis.apply_model, h1, h2]
  · show dict_lookup mdl.name
      (dict_insert mdl.name (sa_result_of mdl.toForecastModel tr te) s.results) = _
    rw [dict_lookup_insert]
    simp [sa_result_of]
  · simp [SignalAnalysis.apply_model, h1, h2]
  · show dict_lookup (mdl.gridsearch ps tr (1/2 : Rat) 5).1.name
      (dict_insert (mdl.gridsearch ps tr (1/2 : Rat) 5).1.name
        (sa_result_of (mdl.gridsearch ps tr (1/2 : Rat) 5).1 tr te) s.results) = _
    rw [dict_lookup_insert]
    simp [sa_result_of]
  · simp [MultiVariateSignalAnalysis.apply_model, h3, h4]
  · show dict_lookup mm.name
      (dict_insert mm.name (mv_result_of mm.toMVForecastModel mtr mte) m.results) = _
    rw [dict_lookup_insert]
    simp

/-- Witness for C5 at the concrete split orchestrators and collaborators. -/
theorem C5_apply_model_fit_predict_witness :
    (∃ s2, ex_sa2.apply_model ex_model false none = .ok s2 ∧
      dict_lookup ex_model.name s2.results =
        some { test_set := ex_test,
               predictions := ex_model.fit_predict ex_train ex_test.index.length } ∧
      (ex_model.fit_predict ex_train ex_test.index.length).length = ex_test.index.length) ∧
    (∃ s2, ex_sa2.apply_model ex_model true (some []) = .ok s2 ∧
      dict_lookup (ex_model.gridsearch [] ex_train (1/2 : Rat) 5).1.name s2.results =
        some { test_set := ex_test,
               predictions := (ex_model.gridsearch [] ex_train (1/2 : Rat) 5).1.fit_predict
                 ex_train ex_test.index.length }) ∧
    (∃ m2, ex_mv2.apply_model ex_mv_model false none = .ok m2 ∧
      dict_lookup ex_mv_model.name m2.results =
        some (mv_result_of ex_mv_model.toMVForecastModel ex_mv_train ex_mv_test) ∧
      (mv_result_of ex_mv_model.toMVForecastModel ex_mv_train ex_mv_test).predictions.rows =
        ex_mv_model.fit_predict ex_mv_train ex_mv_test.index.length) :=
  C5_apply_model_fit_predict ex_sa2 ex_train ex_test ex_model [] rfl rfl
    ex_mv2 ex_mv_train ex_mv_test ex_mv_model rfl rfl
    (fun n => by simp [ex_model])

/-- Claim C6 counterexample: the gridsearch operation consumed by
`SignalAnalysis.apply_model` returns a **triple**, not a pair: at this
concrete call it carries a third (best-score) component, 7, beside the
best model and best parameters, and `apply_model` consumes its first
component as the model to fit. -/
theorem C6_counterexample :
    (ex_model.gridsearch [] ex_train (1/2 : Rat) 5).2.2 = 7 ∧
    ex_sa2.apply_model ex_model true (some []) = .ok { ex_sa2 with
      scores := [(ex_best.name, sa_score_of ex_best ex_train ex_test)],
      results := [(ex_best.name, sa_result_of ex_best ex_train ex_test)] } :=
  ⟨rfl, rfl⟩

/-- Claim C6 (amended): with a search space supplied, both orchestrators
invoke the collaborator's gridsearch on the train slice with validation
start-fraction 0.5, with forecast horizon 5 (univariate) resp. 12
(multivariate); the univariate orchestrator consumes the result as the
triple `(best_model, best_parameters, score)` and the multivariate one
as the pair `(best_model, best_parameters)`; in both only the first
component (the best model) is used further: it is fitted on the train
slice and its record stored under its class name. -/
theorem C6_gridsearch_contract (s : SignalAnalysis) (tr te : DataFrame)
    (mdl : SAModel) (ps : ParamGrid)
    (h1 : s.train_set = some tr) (h2 : s.test_set = some te)
    (m : MultiVariateSignalAnalysis) (mtr mte : DataFrame) (mm : MVModel)
    (mps : Option ParamGrid)
    (h3 : m.train_set = some mtr) (h4 : m.test_set = some mte) :
    s.apply_model mdl true (some ps) = .ok { s with
      scores := dict_insert (mdl.gridsearch ps tr (1/2 : Rat) 5).1.name
        (sa_score_of (mdl.gridsearch ps tr (1/2 : Rat) 5).1 tr te) s.scores,
      results := dict_insert (mdl.gridsearch ps tr (1/2 : Rat) 5).1.name
        (sa_result_of (mdl.gridsearch ps tr (1/2 : Rat) 5).1 tr te) s.results } ∧
    m.apply_model mm true mps = .ok { m with
      results := dict_insert (mm.gridsearch mps mtr (1/2 : Rat) 12).1.name
        (mv_result_of (mm.gridsearch mps mtr (1/2 : Rat) 12).1 mtr mte) m.results,
      scores := dict_insert (mm.gridsearch mps mtr (1/2 : Rat) 12).1.name
        (mv_score_of (mm.gridsearch mps mtr (1/2 : Rat) 12).1 mtr mte) m.scores } := by
  constructor
  · simp [SignalAnalysis.apply_model, h1, h2]
  · simp [MultiVariateSignalAnalysis.apply_model, h3, h4]

/-- Witness for the amended C6. -/
theorem C6_gridsearch_contract_witness :
    ex_sa2.apply_model ex_model true (some []) = .ok { ex_sa2 with
      scores := dict_insert (ex_model.gridsearch [] ex_train (1/2 : Rat) 5).1.name
        (sa_score_of (ex_model.gridsearch [] ex_train (1/2 : Rat) 5).1 ex_train ex_test)
        ex_sa2.scores,
      results := dict_insert (ex_model.gridsearch [] ex_train (1/2 : Rat) 5).1.name
        (sa_result_of (ex_model.gridsearch [] ex_train (1/2 : Rat) 5).1 ex_train ex_test)
        ex_sa2.results } ∧
    ex_mv2.apply_model ex_mv_model true (some []) = .ok { ex_mv2 with
      results := dict_insert (ex_mv_model.gridsearch (some []) ex_mv_train (1/2 : Rat) 12).1.name
        (mv_result_of (ex_mv_model.gridsearch (some []) ex_mv_train (1/2 : Rat) 12).1
          ex_mv_train ex_mv_test) ex_mv2.results,
      scores := dict_insert (ex_mv_model.gridsearch (some []) ex_mv_train (1/2 : Rat) 12).1.name
        (mv_score_of (ex_mv_model.gridsearch (some []) ex_mv_train (1/2 : Rat) 12).1
          ex_mv_train ex_mv_test) ex_mv2.scores } :=
  C6_gridsearch_contract ex_sa2 ex_train ex_test ex_model [] rfl rfl
    ex_mv2 ex_mv_train ex_mv_test ex_mv_model (some []) rfl rfl

/-- Rendering produced by `ex_sa_res.show_predictions`. -/
def ex_sa_out : RenderOut :=
  { labels := ["Actuals", "ExponentialSmoothing"],
    plotted := ["ExponentialSmoothing"], warnings := [] }

/-- Claim C7 counterexample: on a split univariate orchestrator with an
empty results dictionary, the orchestrator's own `show_predictions`
does not raise the no-predictions error: it renders the actuals alone. -/
theorem C7_counterexample :
    ex_sa2.show_predictions =
      .ok (ex_sa2, { labels := ["Actuals"], plotted := [], warnings := [] }) := rfl

/-- Claim C7 (amended): the "No predictions have been computed." guard
exists only in `Visualization.show_predictions`, which raises it
whenever the signal's model dictionary is empty;
`SignalAnalysis.show_predictions` has no such check and, with empty
results, renders only the actuals without error. -/
theorem C7_show_predictions_no_models (v : Signal) (b : Bool) (hv : v.models = [])
    (s : SignalAnalysis) (te : DataFrame)
    (h1 : s.test_set = some te) (h2 : s.results = []) :
    Visualization.show_predictions v b =
      .error (.exception "No predictions have been computed.") ∧
    s.show_predictions = .ok (s, { labels := ["Actuals"], plotted := [], warnings := [] }) := by
  constructor
  · unfold Visualization.show_predictions
    rw [hv]
    rfl
  · unfold SignalAnalysis.show_predictions
    rw [h1, h2]
    rfl

/-- Witness for the amended C7. -/
theorem C7_show_predictions_no_models_witness :
    Visualization.show_predictions ex_signal_empty false =
      .error (.exception "No predictions have been computed.") ∧
    ex_sa2.show_predictions =
      .ok (ex_sa2, { labels := ["Actuals"], plotted := [], warnings := [] }) :=
  C7_show_predictions_no_models ex_signal_empty false rfl ex_sa2 ex_test rfl rfl

/-- Claim C8: `show_forecast` (non-aggregated path) succeeds on any
signal, emitting exactly one non-fatal warning per recorded model whose
record lacks forecast output and skipping it, while every recorded
model with forecast output is rendered. -/
theorem C8_show_forecast_skips (v : Signal) :
    ∃ out, Visualization.show_forecast v false = .ok (v, out) ∧
      out.warnings = v.models.filterMap (fun e =>
        if e.2.forecast.isSome then none
        else some ("No forecasts have been computed with " ++ e.1)) ∧
      out.plotted = v.models.filterMap (fun e =>
        if e.2.forecast.isSome then some e.1 else none) ∧
      (∀ e ∈ v.models, e.2.forecast.isSome → e.1 ∈ out.plotted) := by
  obtain ⟨hks, hws⟩ := vis_forecast_loop_spec v.test_data.cols.length v.models
  refine ⟨⟨actual_labels v.test_data.cols.length ++
      (vis_forecast_loop v.test_data.cols.length v.models).1,
      (vis_forecast_loop v.test_data.cols.length v.models).2.1,
      (vis_forecast_loop v.test_data.cols.length v.models).2.2⟩,
    rfl, hws, hks, ?_⟩
  intro e he hsome
  show e.1 ∈ (vis_forecast_loop v.test_data.cols.length v.models).2.1
  rw [hks]
  exact List.mem_filterMap.mpr ⟨e, he, by simp [hsome]⟩

/-- Claim C9 counterexample: `MultiVariateSignalAnalysis.show_predictions`
is not stateless: on this populated orchestrator it returns a state
whose stored prediction frame's index has been overwritten with the
test index, differing from the state before the call. -/
theorem C9_counterexample :
    ex_mv_res.show_predictions = .ok (ex_mv_mut, ex_mv_out) ∧ ex_mv_mut ≠ ex_mv_res :=
  ⟨rfl, by decide⟩

/-- Claim C9 (amended): `Visualization.show_predictions`,
`Visualization.show_forecast` and `SignalAnalysis.show_predictions`
leave their input state unchanged; the multivariate orchestrator's own
`show_predictions`, however, overwrites the index of every stored
prediction frame with the test index (values, scores and every other
field are unchanged). -/
theorem C9_rendering_state (v v2 : Signal) (b : Bool) (outv : RenderOut)
    (w w2 : Signal) (b2 : Bool) (outw : RenderOut)
    (s s2 : SignalAnalysis) (outs : RenderOut)
    (m m2 : MultiVariateSignalAnalysis) (te : DataFrame) (outm : RenderOut)
    (hv : Visualization.show_predictions v b = .ok (v2, outv))
    (hw : Visualization.show_forecast w b2 = .ok (w2, outw))
    (hs : s.show_predictions = .ok (s2, outs))
    (hm : m.test_set = some te)
    (hmv : m.show_predictions = .ok (m2, outm)) :
    v2 = v ∧ w2 = w ∧ s2 = s ∧
    m2.data = m.data ∧ m2.train_set = m.train_set ∧ m2.test_set = m.test_set ∧
    m2.scores = m.scores ∧
    m2.results = m.results.map (fun e =>
      (e.1, { e.2 with predictions := { e.2.predictions with index := te.index } })) := by
  refine ⟨vis_show_predictions_keeps_signal v b v2 outv hv,
    vis_show_forecast_keeps_signal w b2 w2 outw hw,
    sa_show_predictions_keeps_state s s2 outs hs, ?_⟩
  unfold MultiVariateSignalAnalysis.show_predictions at hmv
  split at hmv
  · exact absurd hmv (by simp)
  · rename_i test_set heq
    rw [hm] at heq
    injection heq with hte
    subst hte
    simp only [] at hmv
    split at hmv
    · exact absurd hmv (by simp)
    · rename_i es ls ks hloop
      obtain ⟨h1, h2⟩ := by simpa using hmv
      obtain ⟨he, hk⟩ := mv_pred_loop_ok te te.cols.length m.results es ls ks hloop
      subst h1
      subst he
      exact ⟨rfl, rfl, rfl, rfl, rfl⟩

/-- Witness for the amended C9 at concrete populated states. -/
theorem C9_rendering_state_witness :
    ex_signal = ex_signal ∧ ex_signal = ex_signal ∧ ex_sa_res = ex_sa_res ∧
    ex_mv_mut.data = ex_mv_res.data ∧ ex_mv_mut.train_set = ex_mv_res.train_set ∧
    ex_mv_mut.test_set = ex_mv_res.test_set ∧ ex_mv_mut.scores = ex_mv_res.scores ∧
    ex_mv_mut.results = ex_mv_res.results.map (fun e =>
      (e.1, { e.2 with predictions := { e.2.predictions with index := ex_mv_test.index } })) :=
  C9_rendering_state ex_signal ex_signal false ex_vis_pred_out
    ex_signal ex_signal false ex_vis_fc_out
    ex_sa_res ex_sa_res ex_sa_out
    ex_mv_res ex_mv_mut ex_mv_test ex_mv_out
    rfl rfl rfl rfl rfl

/-- Claim C10: on a freshly constructed orchestrator (no prior
`split_cv`), `apply_model` fails with the non-descriptive
`AttributeError` on the missing `train_set` attribute — for every
gridsearch/parameters combination and in both orchestrators — and this
error is not a user-facing `Exception` describing the precondition. -/
theorem C10_apply_model_before_split (d d2 : DataFrame) (mdl : SAModel) (mm : MVModel)
    (gs gs2 : Bool) (ps ps2 : Option ParamGrid) :
    (SignalAnalysis.init d).apply_model mdl gs ps = .error (.attributeError "train_set") ∧
    (MultiVariateSignalAnalysis.init d2).apply_model mm gs2 ps2 =
      .error (.attributeError "train_set") ∧
    (∀ msg, (PyError.attributeError "train_set") ≠ (PyError.exception msg)) := by
  refine ⟨rfl, ?_, ?_⟩
  · cases gs2 <;> rfl
  · intro msg h
    simp at h
